import Mathlib

/-!
Shallow embedding of the DevTrack backend (Express + Mongoose project/ticket
tracker) and proofs about its authorization, membership and mutation logic.

User, project and ticket identifiers are modelled as natural numbers; the
document store is modelled as in-memory lists (projects as a list of
`Project`, tickets as an association list keyed by ticket id, users as a list
of `User`).  Each Express route handler is translated into a total Lean
function from the store snapshot and request data to an `HResult` (status
code plus payload or error message) together with the store after the
handler ran; an early `return res.status(s).json(...)` in the source becomes
the corresponding `HResult.err s msg` branch with the store unchanged.
-/

namespace DevTrack

/-- A user record (shape per the auth routes and spec section 3: identifier,
name, unique email). -/
structure User where
  uid : Nat
  name : String
  email : String
deriving DecidableEq, Repr

/-- A project record (shape per routes/projects: `createdBy` owner reference
and `teamMembers` list of user ids). -/
structure Project where
  pid : Nat
  title : String
  description : String
  createdBy : Nat
  teamMembers : List Nat
deriving DecidableEq, Repr

/-- An embedded comment, per models/Ticket.js `comments` subdocument:
required author reference, required text, timestamp. -/
structure Comment where
  author : Nat
  text : String
  timestamp : Nat
deriving DecidableEq, Repr

/-- A ticket document, per models/Ticket.js: title, description, enumerated
priority / status / type (modelled as strings with the schema defaults
applied at creation), tags, optional assignee, required reporter, required
immutable projectId and createdBy, embedded comment list, timestamps. -/
structure Ticket where
  title : String
  description : String
  priority : String
  status : String
  type : String
  tags : List String
  assignee : Option Nat
  reporter : Nat
  projectId : Nat
  createdBy : Nat
  comments : List Comment
  createdAt : Nat
  updatedAt : Nat
deriving DecidableEq, Repr

/-- Result of a route handler: `ok status payload` for a success JSON
response, `err status message` for an error JSON response. -/
inductive HResult (α : Type) where
  | ok : Nat → α → HResult α
  | err : Nat → String → HResult α
deriving DecidableEq, Repr

/-- `Project.findById`. -/
def findProject (ps : List Project) (i : Nat) : Option Project :=
  ps.find? (fun p => p.pid == i)

/-- `User.findById`. -/
def findUserById (users : List User) (i : Nat) : Option User :=
  users.find? (fun u => u.uid == i)

/-- `User.findOne({ email })`. -/
def findUserByEmail (users : List User) (e : String) : Option User :=
  users.find? (fun u => u.email == e)

/-- `Ticket.findById` over the ticket store (association list keyed by
ticket id). -/
def findTicket (ts : List (Nat × Ticket)) (i : Nat) : Option Ticket :=
  (ts.find? (fun e => e.1 == i)).map (fun e => e.2)

/-- Persisting an updated ticket document under its id (`ticket.save()`). -/
def saveTicket (ts : List (Nat × Ticket)) (i : Nat) (t : Ticket) : List (Nat × Ticket) :=
  ts.map (fun e => if e.1 == i then (i, t) else e)

/-- Persisting an updated project document (`project.save()`). -/
def saveProject (ps : List Project) (i : Nat) (p : Project) : List Project :=
  ps.map (fun q => if q.pid == i then p else q)

/-- Spec section 4.1 access policy: `canAccessProject(actor, project)` is
true iff actor == project.createdBy or actor is in project.teamMembers. -/
def canAccessProject (actor : Nat) (p : Project) : Prop :=
  actor = p.createdBy ∨ actor ∈ p.teamMembers

instance (actor : Nat) (p : Project) : Decidable (canAccessProject actor p) := by
  unfold canAccessProject
  infer_instance

/-- Spec section 4.1 access policy: `canMutateTicket(actor, project, ticket)`
is true iff actor == project.createdBy or actor is in project.teamMembers or
actor == ticket.createdBy. -/
def canMutateTicket (actor : Nat) (p : Project) (t : Ticket) : Prop :=
  actor = p.createdBy ∨ actor ∈ p.teamMembers ∨ actor = t.createdBy

instance (actor : Nat) (p : Project) (t : Ticket) : Decidable (canMutateTicket actor p t) := by
  unfold canMutateTicket
  infer_instance

/-- Spec section 4.1 access policy: `canDeleteTicket(actor, project, ticket)`
is true iff actor == project.createdBy or actor == ticket.createdBy. -/
def canDeleteTicket (actor : Nat) (p : Project) (t : Ticket) : Prop :=
  actor = p.createdBy ∨ actor = t.createdBy

instance (actor : Nat) (p : Project) (t : Ticket) : Decidable (canDeleteTicket actor p t) := by
  unfold canDeleteTicket
  infer_instance

/-- GET /api/projects/:id (routes/projects, part_002 lines 38-57): fetch the
project, 404 when absent, 403 when the requester is neither a team member
nor the creator, otherwise return the project. -/
def getProjectById (ps : List Project) (i actor : Nat) : HResult Project :=
  match findProject ps i with
  | none => .err 404 "Project not found"
  | some p =>
    if actor ∉ p.teamMembers ∧ p.createdBy ≠ actor then
      .err 403 "Access denied"
    else
      .ok 200 p

/-- Tickets belonging to a given project (`Ticket.find({ projectId })`). -/
def ticketsOfProject (ts : List (Nat × Ticket)) (i : Nat) : List Ticket :=
  (ts.filter (fun e => e.2.projectId == i)).map (fun e => e.2)

/-- GET /api/tickets/project/:projectId (part_003 lines 122-149): fetch the
project, 404 when absent, 403 when the requester is neither the creator nor
a team member, otherwise return the tickets of the project. -/
def getProjectTickets (ps : List Project) (ts : List (Nat × Ticket)) (i actor : Nat) :
    HResult (List Ticket) :=
  match findProject ps i with
  | none => .err 404 "Project not found."
  | some p =>
    if p.createdBy ≠ actor ∧ actor ∉ p.teamMembers then
      .err 403 "Access denied: You are not authorized to view tickets in this project."
    else
      .ok 200 (ticketsOfProject ts i)

/-- A PUT /api/tickets/:id request body: any subset of ticket fields may be
supplied (`none` means the key is absent from the JSON payload).  `projectId`
and `createdBy` may appear, since nothing in the handlers strips them. -/
structure TicketUpdate where
  title : Option String := none
  description : Option String := none
  priority : Option String := none
  status : Option String := none
  type : Option String := none
  tags : Option (List String) := none
  assignee : Option Nat := none
  reporter : Option Nat := none
  projectId : Option Nat := none
  createdBy : Option Nat := none
deriving DecidableEq, Repr

/-- `Object.assign(ticket, req.body)`: every key present in the payload
overwrites the corresponding ticket field; absent keys leave the field as it
was.  The embedded comment log and creation timestamp are not part of the
update surface. -/
def objectAssign (t : Ticket) (b : TicketUpdate) : Ticket :=
  { title := b.title.getD t.title
    description := b.description.getD t.description
    priority := b.priority.getD t.priority
    status := b.status.getD t.status
    type := b.type.getD t.type
    tags := b.tags.getD t.tags
    assignee := match b.assignee with
      | some a => some a
      | none => t.assignee
    reporter := b.reporter.getD t.reporter
    projectId := b.projectId.getD t.projectId
    createdBy := b.createdBy.getD t.createdBy
    comments := t.comments
    createdAt := t.createdAt
    updatedAt := t.updatedAt }

/-- Assignee validation block shared by the ticket create and update
handlers (part_003 lines 36-45 and 215-223): when an assignee id is
supplied, 404 if no such user exists, 400 if the user is neither a team
member nor the project creator; `none` means validation passed. -/
def validateAssignee (users : List User) (p : Project) (oa : Option Nat) :
    Option (Nat × String) :=
  match oa with
  | none => none
  | some a =>
    match findUserById users a with
    | none => some (404, "Assignee user not found.")
    | some _ =>
      if a ∉ p.teamMembers ∧ p.createdBy ≠ a then
        some (400, "Assignee must be a member of the project team.")
      else
        none

/-- Reporter validation block of the ticket update handlers (part_003 lines
225-233): when a reporter id is supplied, 404 if no such user exists, 400 if
the user is neither a team member nor the project creator. -/
def validateReporter (users : List User) (p : Project) (orep : Option Nat) :
    Option (Nat × String) :=
  match orep with
  | none => none
  | some r =>
    match findUserById users r with
    | none => some (404, "Reporter user not found.")
    | some _ =>
      if r ∉ p.teamMembers ∧ p.createdBy ≠ r then
        some (400, "Reporter must be a member of the project team.")
      else
        none

/-- PUT /api/tickets/:id, primary variant (part_003 lines 191-251): fetch
ticket and its project (404 on either missing), deny with 403 unless the
requester is the project creator, a project team member, or the ticket
creator; validate assignee and reporter when present in the payload; then
`Object.assign` the payload onto the ticket (the pre-save hook refreshes
`updatedAt`) and save.  Returns the handler result and the ticket store
after the request. -/
def putTicket (ts : List (Nat × Ticket)) (ps : List Project) (users : List User)
    (tid actor : Nat) (b : TicketUpdate) (now : Nat) :
    HResult Ticket × List (Nat × Ticket) :=
  match findTicket ts tid with
  | none => (.err 404 "Ticket not found.", ts)
  | some t =>
    match findProject ps t.projectId with
    | none => (.err 404 "Associated project not found for this ticket.", ts)
    | some p =>
      if actor ≠ p.createdBy ∧ actor ∉ p.teamMembers ∧ actor ≠ t.createdBy then
        (.err 403 "Access denied: You are not authorized to update this ticket.", ts)
      else
        match validateAssignee users p b.assignee with
        | some e => (.err e.1 e.2, ts)
        | none =>
          match validateReporter users p b.reporter with
          | some e => (.err e.1 e.2, ts)
          | none =>
            let updated := { objectAssign t b with updatedAt := now }
            (.ok 200 updated, saveTicket ts tid updated)

/-- PUT /api/tickets/:id, second variant (part_003 lines 498-544): same
validation but the access check only admits a project team member or the
project creator; the ticket creator is not consulted.  A missing associated
project makes the handler dereference null and the catch block answers 400.
-/
def putTicketSecond (ts : List (Nat × Ticket)) (ps : List Project) (users : List User)
    (tid actor : Nat) (b : TicketUpdate) (now : Nat) :
    HResult Ticket × List (Nat × Ticket) :=
  match findTicket ts tid with
  | none => (.err 404 "Ticket not found", ts)
  | some t =>
    match findProject ps t.projectId with
    | none => (.err 400 "Cannot read properties of null", ts)
    | some p =>
      if actor ∉ p.teamMembers ∧ p.createdBy ≠ actor then
        (.err 403 "Access denied: Not a member of this project.", ts)
      else
        match validateAssignee users p b.assignee with
        | some e => (.err e.1 e.2, ts)
        | none =>
          match validateReporter users p b.reporter with
          | some e => (.err e.1 e.2, ts)
          | none =>
            let updated := { objectAssign t b with updatedAt := now }
            (.ok 200 updated, saveTicket ts tid updated)

/-- PUT /api/tickets/:id, routes/tickets.js variant (lines 80-101): access
check only admits a project team member or the project creator, then
`Object.assign` with no field validation at all.  A missing associated
project makes the handler dereference null and the catch block answers 400.
-/
def putTicketRoutes (ts : List (Nat × Ticket)) (ps : List Project)
    (tid actor : Nat) (b : TicketUpdate) (now : Nat) :
    HResult Ticket × List (Nat × Ticket) :=
  match findTicket ts tid with
  | none => (.err 404 "Ticket not found", ts)
  | some t =>
    match findProject ps t.projectId with
    | none => (.err 400 "Cannot read properties of null", ts)
    | some p =>
      if actor ∉ p.teamMembers ∧ p.createdBy ≠ actor then
        (.err 403 "Access denied", ts)
      else
        let updated := { objectAssign t b with updatedAt := now }
        (.ok 200 updated, saveTicket ts tid updated)

/-- A POST /api/tickets request body, per the destructuring in part_003 line
15.  Optional enumerated fields receive the models/Ticket.js schema defaults
when absent. -/
structure TicketCreate where
  projectId : Nat
  title : String
  description : String
  priority : Option String := none
  status : Option String := none
  type : Option String := none
  tags : Option (List String) := none
  assignee : Option Nat := none
  reporter : Option Nat := none
deriving DecidableEq, Repr

/-- POST /api/tickets, primary variant (part_003 lines 13-83): fetch the
project (404 when absent), deny with 403 unless the requester is the project
creator or a team member, default the reporter to the requester, validate
the assignee when supplied and the (possibly defaulted) reporter, then
create the ticket with the schema defaults for absent enumerated fields and
append it to the store under a fresh id. -/
def createTicket (ts : List (Nat × Ticket)) (ps : List Project) (users : List User)
    (actor : Nat) (b : TicketCreate) (newId now : Nat) :
    HResult Ticket × List (Nat × Ticket) :=
  match findProject ps b.projectId with
  | none => (.err 404 "Project not found for this ticket.", ts)
  | some p =>
    if p.createdBy ≠ actor ∧ actor ∉ p.teamMembers then
      (.err 403 "Access denied: You are not authorized to create tickets in this project.", ts)
    else
      let reporterId := b.reporter.getD actor
      match validateAssignee users p b.assignee with
      | some e => (.err e.1 e.2, ts)
      | none =>
        match findUserById users reporterId with
        | none => (.err 404 "Reporter user not found.", ts)
        | some _ =>
          if reporterId ∉ p.teamMembers ∧ p.createdBy ≠ reporterId then
            (.err 400 "Reporter must be a member of the project team.", ts)
          else
            let t : Ticket :=
              { title := b.title
                description := b.description
                priority := b.priority.getD "Medium"
                status := b.status.getD "To Do"
                type := b.type.getD "Task"
                tags := b.tags.getD []
                assignee := b.assignee
                reporter := reporterId
                projectId := b.projectId
                createdBy := actor
                comments := []
                createdAt := now
                updatedAt := now }
            (.ok 201 t, ts ++ [(newId, t)])

/-- DELETE /api/tickets/:id, primary variant (part_003 lines 258-285): fetch
ticket and its project (404 on either missing), deny with 403 unless the
requester is the project creator or the ticket creator, otherwise remove the
ticket from the store. -/
def deleteTicket (ts : List (Nat × Ticket)) (ps : List Project) (tid actor : Nat) :
    HResult String × List (Nat × Ticket) :=
  match findTicket ts tid with
  | none => (.err 404 "Ticket not found.", ts)
  | some t =>
    match findProject ps t.projectId with
    | none => (.err 404 "Associated project not found for this ticket.", ts)
    | some p =>
      if p.createdBy ≠ actor ∧ t.createdBy ≠ actor then
        (.err 403 "Access denied: You must be the project creator or ticket creator to delete this ticket.", ts)
      else
        (.ok 200 "Ticket deleted successfully.", ts.filter (fun e => e.1 != tid))

/-- DELETE /api/tickets/:id, routes/tickets.js variant (lines 104-124): same
permission rule (project creator or ticket creator).  A missing associated
project makes the handler dereference null and the catch block answers 500.
-/
def deleteTicketRoutes (ts : List (Nat × Ticket)) (ps : List Project) (tid actor : Nat) :
    HResult String × List (Nat × Ticket) :=
  match findTicket ts tid with
  | none => (.err 404 "Ticket not found", ts)
  | some t =>
    match findProject ps t.projectId with
    | none => (.err 500 "Cannot read properties of null", ts)
    | some p =>
      if p.createdBy ≠ actor ∧ t.createdBy ≠ actor then
        (.err 403 "Access denied", ts)
      else
        (.ok 200 "Ticket deleted", ts.filter (fun e => e.1 != tid))

/-- POST /api/projects/:id/members (part_001 lines 273-309, part_002 lines
103-132): fetch the project (404 when absent), 403 unless the requester is
the project creator, resolve the target user by email (404 when absent), 400
when the resolved user is already a team member, otherwise push the user id
onto the member list and save. -/
def addMember (ps : List Project) (users : List User) (i actor : Nat) (email : String) :
    HResult Project × List Project :=
  match findProject ps i with
  | none => (.err 404 "Project not found.", ps)
  | some p =>
    if p.createdBy ≠ actor then
      (.err 403 "Access denied: Only the project creator can add members.", ps)
    else
      match findUserByEmail users email with
      | none => (.err 404 "User not found with this email.", ps)
      | some u =>
        if u.uid ∈ p.teamMembers then
          (.err 400 "User is already a team member of this project.", ps)
        else
          let updated := { p with teamMembers := p.teamMembers ++ [u.uid] }
          (.ok 200 updated, saveProject ps i updated)

/-- DELETE /api/projects/:id/members/:userId (part_001 lines 316-347,
part_002 lines 135-161): fetch the project (404 when absent), 403 unless the
requester is the project creator, 400 when the target equals the project
creator, otherwise filter the target out of the member list (no error when
the target was not a member) and save. -/
def removeMember (ps : List Project) (i actor target : Nat) :
    HResult Project × List Project :=
  match findProject ps i with
  | none => (.err 404 "Project not found.", ps)
  | some p =>
    if p.createdBy ≠ actor then
      (.err 403 "Access denied: Only the project creator can remove members.", ps)
    else if target = p.createdBy then
      (.err 400 "Cannot remove the project creator from the team.", ps)
    else
      let updated := { p with teamMembers := p.teamMembers.filter (fun m => m != target) }
      (.ok 200 updated, saveProject ps i updated)

/-- DELETE /api/projects/:id (part_001 lines 246-266): fetch the project
(404 when absent), 403 unless the requester is the creator, otherwise remove
the project document.  The ticket store is not an argument: deleting a
project does not cascade to its tickets. -/
def deleteProject (ps : List Project) (i actor : Nat) :
    HResult String × List Project :=
  match findProject ps i with
  | none => (.err 404 "Project not found.", ps)
  | some p =>
    if p.createdBy ≠ actor then
      (.err 403 "Access denied: Only the project creator can delete this project.", ps)
    else
      (.ok 200 "Project deleted successfully.", ps.filter (fun q => q.pid != i))

/-- Appending one comment to a ticket: push onto the embedded comment list;
the pre-save hook refreshes `updatedAt`. -/
def appendComment (t : Ticket) (author : Nat) (text : String) (now : Nat) : Ticket :=
  { t with
    comments := t.comments ++ [{ author := author, text := text, timestamp := now }]
    updatedAt := now }

/-- POST /api/tickets/:id/comments (part_003 lines 292-338): fetch ticket
and its project (404 on either missing), 403 unless the requester is the
project creator or a team member, push the new comment (authored by the
requester, timestamped now) onto the comment list, save, and respond with
only the last element of the saved comment list. -/
def addComment (ts : List (Nat × Ticket)) (ps : List Project)
    (tid actor : Nat) (text : String) (now : Nat) :
    HResult Comment × List (Nat × Ticket) :=
  match findTicket ts tid with
  | none => (.err 404 "Ticket not found.", ts)
  | some t =>
    match findProject ps t.projectId with
    | none => (.err 404 "Associated project not found for this ticket.", ts)
    | some p =>
      if p.createdBy ≠ actor ∧ actor ∉ p.teamMembers then
        (.err 403 "Access denied: You are not authorized to comment on this ticket.", ts)
      else
        let updated := appendComment t actor text now
        let latest := updated.comments.getD (updated.comments.length - 1)
          { author := 0, text := "", timestamp := 0 }
        (.ok 201 latest, saveTicket ts tid updated)

/-- Folding a sequence of comment submissions (author, text, timestamp) over
a ticket, one `appendComment` per submission. -/
def appendComments (t : Ticket) (entries : List (Nat × String × Nat)) : Ticket :=
  entries.foldl (fun acc e => appendComment acc e.1 e.2.1 e.2.2) t

/-- GET /api/tickets/:id (part_003 lines 156-184): fetch the ticket (404
when absent), then fetch its project and read `project.createdBy` with no
null check — when the project is absent this throws a TypeError which the
catch block turns into a 500 response; with the project present, 403 unless
the requester is the project creator or a team member, otherwise return the
ticket. -/
def getTicketById (ts : List (Nat × Ticket)) (ps : List Project) (tid actor : Nat) :
    HResult Ticket :=
  match findTicket ts tid with
  | none => .err 404 "Ticket not found."
  | some t =>
    match findProject ps t.projectId with
    | none => .err 500 "Server error. Could not fetch ticket details."
    | some p =>
      if p.createdBy ≠ actor ∧ actor ∉ p.teamMembers then
        .err 403 "Access denied: You are not authorized to view this ticket."
      else
        .ok 200 t

/-- An event observed by the relay: a channel joining a project room
(`socket.on("join_project", ...)` calls `socket.join(projectId)`), a channel
disconnecting, or a broadcast of a payload to a project room
(`io.to(data.projectId).emit("receive_message", data)`). -/
inductive RelayEvent where
  | join : Nat → Nat → RelayEvent
  | disconnect : Nat → RelayEvent
  | broadcast : Nat → Nat → RelayEvent
deriving DecidableEq, Repr

/-- Modelled from the spec: the room bookkeeping behind `socket.join`,
disconnect cleanup and `io.to(room).emit` is socket.io library behavior with
no source under src; per spec sections 4.3 and 6, join adds the (channel,
room) membership (multi-room membership permitted, joining twice is
absorbed), disconnect removes the channel from every room, and a broadcast
leaves membership unchanged. -/
def relayStep (s : List (Nat × Nat)) : RelayEvent → List (Nat × Nat)
  | .join c r => if (c, r) ∈ s then s else s ++ [(c, r)]
  | .disconnect c => s.filter (fun m => m.1 != c)
  | .broadcast _ _ => s

/-- Room membership after processing a trace of relay events from a given
starting membership. -/
def relayStateFrom (s : List (Nat × Nat)) (es : List RelayEvent) : List (Nat × Nat) :=
  es.foldl relayStep s

/-- Room membership after processing a trace of relay events from the empty
initial state (server start). -/
def relayState (es : List RelayEvent) : List (Nat × Nat) :=
  relayStateFrom [] es

/-- Modelled from the spec: deliveries produced by one event.  Per spec
section 4.3, a broadcast to room r delivers the payload to every channel
currently in that room — and only then; join and disconnect deliver
nothing. -/
def emitTo (s : List (Nat × Nat)) : RelayEvent → List (Nat × Nat × Nat)
  | .broadcast r payload => (s.filter (fun m => m.2 == r)).map (fun m => (m.1, r, payload))
  | _ => []

/-- All (channel, room, payload) deliveries produced while processing a
trace from a given starting membership, in trace order.  No buffering: each
broadcast consults only the membership current at that point. -/
def deliveriesFrom (s : List (Nat × Nat)) : List RelayEvent → List (Nat × Nat × Nat)
  | [] => []
  | e :: es => emitTo s e ++ deliveriesFrom (relayStep s e) es

/-- All deliveries produced by a trace from the empty initial state. -/
def deliveries (es : List RelayEvent) : List (Nat × Nat × Nat) :=
  deliveriesFrom [] es

/-- The channels a broadcast to room r reaches when issued after the trace
es: exactly the channels currently joined to r. -/
def broadcastRecipients (es : List RelayEvent) (r : Nat) : List Nat :=
  ((relayState es).filter (fun m => m.2 == r)).map (fun m => m.1)

/-- The HTTP status of a handler result. -/
def statusOf {α : Type} : HResult α → Nat
  | .ok s _ => s
  | .err s _ => s

/-- Sample project for concrete witnesses: id 1, owner 10, members 10 and
11. -/
def sampleProject : Project :=
  { pid := 1, title := "s", description := "d", createdBy := 10, teamMembers := [10, 11] }

/-- Sample ticket in project 1, created and reported by the owner 10. -/
def sampleTicket : Ticket :=
  { title := "t", description := "d", priority := "Medium", status := "To Do",
    type := "Task", tags := [], assignee := none, reporter := 10,
    projectId := 1, createdBy := 10, comments := [], createdAt := 0, updatedAt := 0 }

/-- Sample ticket in project 1 created by user 20, who is neither the owner
nor a team member of project 1. -/
def outsiderTicket : Ticket :=
  { sampleTicket with createdBy := 20, reporter := 20 }

/-- Spec section 4.1: `isValidProjectPrincipal(userId, project)` is true iff
userId == project.createdBy or userId is in project.teamMembers; used to
validate assignee and reporter on ticket create and update. -/
def isValidProjectPrincipal (uid : Nat) (p : Project) : Prop :=
  uid = p.createdBy ∨ uid ∈ p.teamMembers

instance (uid : Nat) (p : Project) : Decidable (isValidProjectPrincipal uid p) := by
  unfold isValidProjectPrincipal
  infer_instance

/-- Sample user store for concrete witnesses: the owner 10, the member 11,
and the unrelated user 30. -/
def sampleUsers : List User :=
  [{ uid := 10, name := "o", email := "o@x" },
   { uid := 11, name := "m", email := "m@x" },
   { uid := 30, name := "z", email := "z@x" }]

/-- Claim C1: for every actor U and project P, project access is granted iff
U equals P.createdBy or U is an element of P.teamMembers; an authenticated
actor who is neither receives a 403 denial and sees no project data.  Stated
for both handlers the claim cites: GET /api/projects/:id and GET
/api/tickets/project/:projectId. -/
theorem c1_project_access_iff (ps : List Project) (ts : List (Nat × Ticket))
    (i actor : Nat) (p : Project) (h : findProject ps i = some p) :
    (getProjectById ps i actor = .ok 200 p ↔ canAccessProject actor p) ∧
    (¬ canAccessProject actor p →
      getProjectById ps i actor = .err 403 "Access denied") ∧
    (getProjectTickets ps ts i actor = .ok 200 (ticketsOfProject ts i) ↔
      canAccessProject actor p) ∧
    (¬ canAccessProject actor p →
      getProjectTickets ps ts i actor =
        .err 403 "Access denied: You are not authorized to view tickets in this project.") := by
  unfold canAccessProject
  simp only [getProjectById, getProjectTickets, h]
  by_cases h1 : actor ∈ p.teamMembers <;> by_cases h2 : p.createdBy = actor <;>
    (simp [h1, h2]; try tauto)

/-- Witness for C1 at a concrete store: member 11 of project 1 (owner 10)
is granted access, and outsider 12 is denied with 403. -/
theorem c1_project_access_iff_witness :
    getProjectById [sampleProject] 1 11 = .ok 200 sampleProject ∧
    getProjectById [sampleProject] 1 12 = .err 403 "Access denied" := by
  refine ⟨?_, ?_⟩
  · exact (c1_project_access_iff [sampleProject] [] 1 11 sampleProject rfl).1.mpr (by decide)
  · exact (c1_project_access_iff [sampleProject] [] 1 12 sampleProject rfl).2.1 (by decide)

/-- Validation errors of the assignee block carry status 404 or 400, never
403. -/
theorem validateAssignee_status (users : List User) (p : Project) (oa : Option Nat)
    (e : Nat × String) (h : validateAssignee users p oa = some e) :
    e.1 = 404 ∨ e.1 = 400 := by
  unfold validateAssignee at h
  cases oa with
  | none => simp at h
  | some a =>
    cases hf : findUserById users a with
    | none =>
      simp [hf] at h
      simp [← h]
    | some u =>
      simp [hf] at h
      simp [← h.2]

/-- Validation errors of the reporter block carry status 404 or 400, never
403. -/
theorem validateReporter_status (users : List User) (p : Project) (orep : Option Nat)
    (e : Nat × String) (h : validateReporter users p orep = some e) :
    e.1 = 404 ∨ e.1 = 400 := by
  unfold validateReporter at h
  cases orep with
  | none => simp at h
  | some r =>
    cases hf : findUserById users r with
    | none =>
      simp [hf] at h
      simp [← h]
    | some u =>
      simp [hf] at h
      simp [← h.2]

/-- The inline denial condition of the member-or-creator access checks is
the negation of the spec access policy. -/
theorem not_access_cond (actor : Nat) (p : Project) :
    (actor ∉ p.teamMembers ∧ p.createdBy ≠ actor) ↔ ¬ canAccessProject actor p := by
  unfold canAccessProject
  constructor
  · rintro ⟨h1, h2⟩ (h3 | h3)
    · exact h2 h3.symm
    · exact h1 h3
  · intro h
    push_neg at h
    exact ⟨h.2, fun hh => h.1 hh.symm⟩

/-- The inline denial condition of the primary ticket-update handler is the
negation of the spec mutate policy. -/
theorem not_mutate_cond (actor : Nat) (p : Project) (t : Ticket) :
    (actor ≠ p.createdBy ∧ actor ∉ p.teamMembers ∧ actor ≠ t.createdBy) ↔
      ¬ canMutateTicket actor p t := by
  unfold canMutateTicket
  tauto

/-- The inline denial condition of the ticket-delete handlers is the
negation of the spec delete policy. -/
theorem not_delete_cond (actor : Nat) (p : Project) (t : Ticket) :
    (p.createdBy ≠ actor ∧ t.createdBy ≠ actor) ↔ ¬ canDeleteTicket actor p t := by
  unfold canDeleteTicket
  constructor
  · rintro ⟨h1, h2⟩ (h3 | h3)
    · exact h1 h3.symm
    · exact h2 h3.symm
  · intro h
    push_neg at h
    exact ⟨fun hh => h.1 hh.symm, fun hh => h.2 hh.symm⟩

/-- The primary ticket-update handler answers 403 exactly when the actor
fails the three-way mutate policy. -/
theorem putTicket_denied_iff (ts : List (Nat × Ticket)) (ps : List Project)
    (users : List User) (tid actor : Nat) (b : TicketUpdate) (now : Nat)
    (t : Ticket) (p : Project)
    (ht : findTicket ts tid = some t) (hp : findProject ps t.projectId = some p) :
    statusOf (putTicket ts ps users tid actor b now).1 = 403 ↔
      ¬ canMutateTicket actor p t := by
  simp only [putTicket, ht, hp]
  by_cases hm : canMutateTicket actor p t
  · rw [if_neg (fun hc => (not_mutate_cond actor p t).mp hc hm)]
    cases hva : validateAssignee users p b.assignee with
    | some e =>
      rcases validateAssignee_status users p b.assignee e hva with h4 | h4 <;>
        simp [statusOf, hm, h4]
    | none =>
      cases hvr : validateReporter users p b.reporter with
      | some e =>
        rcases validateReporter_status users p b.reporter e hvr with h4 | h4 <;>
          simp [statusOf, hm, h4]
      | none =>
        simp [statusOf, hm]
  · rw [if_pos ((not_mutate_cond actor p t).mpr hm)]
    simp [statusOf, hm]

/-- With the three-way mutate policy failed, the primary ticket-update
handler returns 403 and leaves the store unchanged. -/
theorem putTicket_denied_eq (ts : List (Nat × Ticket)) (ps : List Project)
    (users : List User) (tid actor : Nat) (b : TicketUpdate) (now : Nat)
    (t : Ticket) (p : Project)
    (ht : findTicket ts tid = some t) (hp : findProject ps t.projectId = some p)
    (hm : ¬ canMutateTicket actor p t) :
    putTicket ts ps users tid actor b now =
      (.err 403 "Access denied: You are not authorized to update this ticket.", ts) := by
  simp only [putTicket, ht, hp]
  rw [if_pos ((not_mutate_cond actor p t).mpr hm)]

/-- The second ticket-update variant answers 403 exactly when the actor
fails the two-way access policy; the ticket creator is not consulted. -/
theorem putTicketSecond_denied_iff (ts : List (Nat × Ticket)) (ps : List Project)
    (users : List User) (tid actor : Nat) (b : TicketUpdate) (now : Nat)
    (t : Ticket) (p : Project)
    (ht : findTicket ts tid = some t) (hp : findProject ps t.projectId = some p) :
    statusOf (putTicketSecond ts ps users tid actor b now).1 = 403 ↔
      ¬ canAccessProject actor p := by
  simp only [putTicketSecond, ht, hp]
  by_cases hm : canAccessProject actor p
  · rw [if_neg (fun hc => (not_access_cond actor p).mp hc hm)]
    cases hva : validateAssignee users p b.assignee with
    | some e =>
      rcases validateAssignee_status users p b.assignee e hva with h4 | h4 <;>
        simp [statusOf, hm, h4]
    | none =>
      cases hvr : validateReporter users p b.reporter with
      | some e =>
        rcases validateReporter_status users p b.reporter e hvr with h4 | h4 <;>
          simp [statusOf, hm, h4]
      | none =>
        simp [statusOf, hm]
  · rw [if_pos ((not_access_cond actor p).mpr hm)]
    simp [statusOf, hm]

/-- With the two-way access policy failed, the second ticket-update variant
returns 403 and leaves the store unchanged. -/
theorem putTicketSecond_denied_eq (ts : List (Nat × Ticket)) (ps : List Project)
    (users : List User) (tid actor : Nat) (b : TicketUpdate) (now : Nat)
    (t : Ticket) (p : Project)
    (ht : findTicket ts tid = some t) (hp : findProject ps t.projectId = some p)
    (hm : ¬ canAccessProject actor p) :
    putTicketSecond ts ps users tid actor b now =
      (.err 403 "Access denied: Not a member of this project.", ts) := by
  simp only [putTicketSecond, ht, hp]
  rw [if_pos ((not_access_cond actor p).mpr hm)]

/-- The routes/tickets.js ticket-update variant answers 403 exactly when the
actor fails the two-way access policy; the ticket creator is not consulted.
-/
theorem putTicketRoutes_denied_iff (ts : List (Nat × Ticket)) (ps : List Project)
    (tid actor : Nat) (b : TicketUpdate) (now : Nat)
    (t : Ticket) (p : Project)
    (ht : findTicket ts tid = some t) (hp : findProject ps t.projectId = some p) :
    statusOf (putTicketRoutes ts ps tid actor b now).1 = 403 ↔
      ¬ canAccessProject actor p := by
  simp only [putTicketRoutes, ht, hp]
  by_cases hm : canAccessProject actor p
  · rw [if_neg (fun hc => (not_access_cond actor p).mp hc hm)]
    simp [statusOf, hm]
  · rw [if_pos ((not_access_cond actor p).mpr hm)]
    simp [statusOf, hm]

/-- With the two-way access policy failed, the routes/tickets.js variant
returns 403 and leaves the store unchanged. -/
theorem putTicketRoutes_denied_eq (ts : List (Nat × Ticket)) (ps : List Project)
    (tid actor : Nat) (b : TicketUpdate) (now : Nat)
    (t : Ticket) (p : Project)
    (ht : findTicket ts tid = some t) (hp : findProject ps t.projectId = some p)
    (hm : ¬ canAccessProject actor p) :
    putTicketRoutes ts ps tid actor b now = (.err 403 "Access denied", ts) := by
  simp only [putTicketRoutes, ht, hp]
  rw [if_pos ((not_access_cond actor p).mpr hm)]

/-- Counterexample to claim C2 as stated: user 20 is the creator of
`outsiderTicket` (so `canMutateTicket` holds), yet the routes/tickets.js
PUT handler — one of the handlers the claim covers — denies the update with
403 and leaves the store unchanged, because that variant only admits the
project creator or a team member. -/
theorem c2_counterexample :
    canMutateTicket 20 sampleProject outsiderTicket ∧
    putTicketRoutes [(5, outsiderTicket)] [sampleProject] 5 20 {} 7 =
      (.err 403 "Access denied", [(5, outsiderTicket)]) := by
  constructor
  · show (20 : Nat) = sampleProject.createdBy ∨ _ ∨ _
    right; right
    rfl
  · rfl

/-- Claim C2 (amended): the primary PUT /api/tickets/:id handler denies with
403 exactly when the actor is neither the project creator, nor a team
member, nor the ticket creator, leaving the store unchanged on denial; the
two other PUT variants (the second part_003 handler and routes/tickets.js)
deny with 403 exactly when the actor is neither the project creator nor a
team member — the ticket creator alone is denied there. -/
theorem c2_update_permission_amended (ts : List (Nat × Ticket)) (ps : List Project)
    (users : List User) (tid actor : Nat) (b : TicketUpdate) (now : Nat)
    (t : Ticket) (p : Project)
    (ht : findTicket ts tid = some t) (hp : findProject ps t.projectId = some p) :
    (statusOf (putTicket ts ps users tid actor b now).1 = 403 ↔
      ¬ canMutateTicket actor p t) ∧
    (¬ canMutateTicket actor p t →
      putTicket ts ps users tid actor b now =
        (.err 403 "Access denied: You are not authorized to update this ticket.", ts)) ∧
    (statusOf (putTicketSecond ts ps users tid actor b now).1 = 403 ↔
      ¬ canAccessProject actor p) ∧
    (¬ canAccessProject actor p →
      putTicketSecond ts ps users tid actor b now =
        (.err 403 "Access denied: Not a member of this project.", ts)) ∧
    (statusOf (putTicketRoutes ts ps tid actor b now).1 = 403 ↔
      ¬ canAccessProject actor p) ∧
    (¬ canAccessProject actor p →
      putTicketRoutes ts ps tid actor b now = (.err 403 "Access denied", ts)) :=
  ⟨putTicket_denied_iff ts ps users tid actor b now t p ht hp,
   putTicket_denied_eq ts ps users tid actor b now t p ht hp,
   putTicketSecond_denied_iff ts ps users tid actor b now t p ht hp,
   putTicketSecond_denied_eq ts ps users tid actor b now t p ht hp,
   putTicketRoutes_denied_iff ts ps tid actor b now t p ht hp,
   putTicketRoutes_denied_eq ts ps tid actor b now t p ht hp⟩

/-- Witness for the amended C2: the ticket creator 20 is not denied by the
primary handler but is denied by the routes/tickets.js variant. -/
theorem c2_update_permission_amended_witness :
    statusOf (putTicket [(5, outsiderTicket)] [sampleProject] [] 5 20 {} 7).1 ≠ 403 ∧
    putTicketRoutes [(5, outsiderTicket)] [sampleProject] 5 20 {} 7 =
      (.err 403 "Access denied", [(5, outsiderTicket)]) := by
  have h := c2_update_permission_amended [(5, outsiderTicket)] [sampleProject] [] 5 20 {} 7
    outsiderTicket sampleProject rfl rfl
  constructor
  · intro hc
    exact h.1.mp hc (by decide)
  · exact h.2.2.2.2.2 (by decide)

/-- Claim C3: deleting a ticket is permitted iff the actor is the project
creator or the ticket creator (both delete handlers), any other actor gets
403 with the store unchanged, and this permission set is strictly narrower
than the three-way mutate permission. -/
theorem c3_delete_permission (ts : List (Nat × Ticket)) (ps : List Project)
    (tid actor : Nat) (t : Ticket) (p : Project)
    (ht : findTicket ts tid = some t) (hp : findProject ps t.projectId = some p) :
    ((deleteTicket ts ps tid actor).1 = .ok 200 "Ticket deleted successfully." ↔
      canDeleteTicket actor p t) ∧
    (¬ canDeleteTicket actor p t →
      deleteTicket ts ps tid actor =
        (.err 403 "Access denied: You must be the project creator or ticket creator to delete this ticket.", ts)) ∧
    ((deleteTicketRoutes ts ps tid actor).1 = .ok 200 "Ticket deleted" ↔
      canDeleteTicket actor p t) ∧
    (¬ canDeleteTicket actor p t →
      deleteTicketRoutes ts ps tid actor = (.err 403 "Access denied", ts)) ∧
    (∀ a (q : Project) (u : Ticket), canDeleteTicket a q u → canMutateTicket a q u) ∧
    (canMutateTicket 11 sampleProject sampleTicket ∧
      ¬ canDeleteTicket 11 sampleProject sampleTicket) := by
  refine ⟨?_, ?_, ?_, ?_, ?_, ?_⟩
  · simp only [deleteTicket, ht, hp]
    by_cases hd : canDeleteTicket actor p t
    · rw [if_neg (fun hc => (not_delete_cond actor p t).mp hc hd)]
      simp [hd]
    · rw [if_pos ((not_delete_cond actor p t).mpr hd)]
      simp [hd]
  · intro hd
    simp only [deleteTicket, ht, hp]
    rw [if_pos ((not_delete_cond actor p t).mpr hd)]
  · simp only [deleteTicketRoutes, ht, hp]
    by_cases hd : canDeleteTicket actor p t
    · rw [if_neg (fun hc => (not_delete_cond actor p t).mp hc hd)]
      simp [hd]
    · rw [if_pos ((not_delete_cond actor p t).mpr hd)]
      simp [hd]
  · intro hd
    simp only [deleteTicketRoutes, ht, hp]
    rw [if_pos ((not_delete_cond actor p t).mpr hd)]
  · intro a q u hd
    unfold canDeleteTicket at hd
    unfold canMutateTicket
    tauto
  · constructor
    · show (11 : Nat) = sampleProject.createdBy ∨ 11 ∈ sampleProject.teamMembers ∨ _
      right; left
      decide
    · decide

/-- Witness for C3: the project owner 10 deletes successfully, the plain
team member 11 is denied by the routes variant. -/
theorem c3_delete_permission_witness :
    (deleteTicket [(5, sampleTicket)] [sampleProject] 5 10).1 =
      .ok 200 "Ticket deleted successfully." ∧
    deleteTicketRoutes [(5, sampleTicket)] [sampleProject] 5 11 =
      (.err 403 "Access denied", [(5, sampleTicket)]) := by
  have h1 := c3_delete_permission [(5, sampleTicket)] [sampleProject] 5 10
    sampleTicket sampleProject rfl rfl
  have h2 := c3_delete_permission [(5, sampleTicket)] [sampleProject] 5 11
    sampleTicket sampleProject rfl rfl
  exact ⟨h1.1.mpr (by decide), h2.2.2.2.1 (by decide)⟩

/-- The inline membership test of the assignee and reporter validation
blocks is the negation of the principal predicate. -/
theorem not_principal_cond (uid : Nat) (p : Project) :
    (uid ∉ p.teamMembers ∧ p.createdBy ≠ uid) ↔ ¬ isValidProjectPrincipal uid p := by
  unfold isValidProjectPrincipal
  constructor
  · rintro ⟨h1, h2⟩ (h3 | h3)
    · exact h2 h3.symm
    · exact h1 h3
  · intro h
    push_neg at h
    exact ⟨h.2, fun hh => h.1 hh.symm⟩

/-- Claim C4: on ticket creation the reporter defaults to the acting user
and the assignee is optional; an assignee or reporter supplied on create, or
present in an update payload, must be the creator of the owning project or a
current team member — an absent principal yields 404, a non-member principal
yields 400, and in every failure case the ticket store is unchanged. -/
theorem c4_principal_validation (ts : List (Nat × Ticket)) (ps : List Project)
    (users : List User) (actor : Nat) (b : TicketCreate) (newId now : Nat)
    (p : Project) (tid : Nat) (t : Ticket) (bu : TicketUpdate)
    (hp : findProject ps b.projectId = some p)
    (hacc : canAccessProject actor p)
    (ht : findTicket ts tid = some t)
    (hp2 : findProject ps t.projectId = some p)
    (hm : canMutateTicket actor p t) :
    (b.reporter = none → ∀ t' : Ticket,
      (createTicket ts ps users actor b newId now).1 = .ok 201 t' →
      t'.reporter = actor ∧ t'.assignee = b.assignee) ∧
    (∀ a, b.assignee = some a → findUserById users a = none →
      createTicket ts ps users actor b newId now = (.err 404 "Assignee user not found.", ts)) ∧
    (∀ a u, b.assignee = some a → findUserById users a = some u →
      ¬ isValidProjectPrincipal a p →
      createTicket ts ps users actor b newId now =
        (.err 400 "Assignee must be a member of the project team.", ts)) ∧
    (b.assignee = none → ∀ r, b.reporter = some r → findUserById users r = none →
      createTicket ts ps users actor b newId now = (.err 404 "Reporter user not found.", ts)) ∧
    (b.assignee = none → ∀ r u, b.reporter = some r → findUserById users r = some u →
      ¬ isValidProjectPrincipal r p →
      createTicket ts ps users actor b newId now =
        (.err 400 "Reporter must be a member of the project team.", ts)) ∧
    (∀ a, bu.assignee = some a → findUserById users a = none →
      putTicket ts ps users tid actor bu now = (.err 404 "Assignee user not found.", ts)) ∧
    (∀ a u, bu.assignee = some a → findUserById users a = some u →
      ¬ isValidProjectPrincipal a p →
      putTicket ts ps users tid actor bu now =
        (.err 400 "Assignee must be a member of the project team.", ts)) ∧
    (bu.assignee = none → ∀ r, bu.reporter = some r → findUserById users r = none →
      putTicket ts ps users tid actor bu now = (.err 404 "Reporter user not found.", ts)) ∧
    (bu.assignee = none → ∀ r u, bu.reporter = some r → findUserById users r = some u →
      ¬ isValidProjectPrincipal r p →
      putTicket ts ps users tid actor bu now =
        (.err 400 "Reporter must be a member of the project team.", ts)) := by
  have haccneg : ¬ (p.createdBy ≠ actor ∧ actor ∉ p.teamMembers) :=
    fun hc => (not_access_cond actor p).mp ⟨hc.2, hc.1⟩ hacc
  have hmneg : ¬ (actor ≠ p.createdBy ∧ actor ∉ p.teamMembers ∧ actor ≠ t.createdBy) :=
    fun hc => (not_mutate_cond actor p t).mp hc hm
  refine ⟨?_, ?_, ?_, ?_, ?_, ?_, ?_, ?_, ?_⟩
  · intro hrep t' hok
    simp only [createTicket, hp] at hok
    rw [if_neg haccneg] at hok
    simp only [hrep, Option.getD_none] at hok
    cases hva : validateAssignee users p b.assignee with
    | some e => simp [hva] at hok
    | none =>
      simp only [hva] at hok
      cases hfr : findUserById users actor with
      | none => simp [hfr] at hok
      | some u =>
        simp only [hfr] at hok
        split at hok
        · simp at hok
        · simp only [HResult.ok.injEq] at hok
          rw [← hok.2]
          exact ⟨rfl, rfl⟩
  · intro a ha hf
    simp only [createTicket, hp]
    rw [if_neg haccneg]
    simp [validateAssignee, ha, hf]
  · intro a u ha hf hnp
    simp only [createTicket, hp]
    rw [if_neg haccneg]
    simp only [validateAssignee, ha, hf]
    rw [if_pos ((not_principal_cond a p).mpr hnp)]
  · intro hna r hr hf
    simp only [createTicket, hp]
    rw [if_neg haccneg]
    simp [validateAssignee, hna, hr, hf]
  · intro hna r u hr hf hnp
    simp only [createTicket, hp]
    rw [if_neg haccneg]
    simp only [validateAssignee, hna, hr, Option.getD_some, hf]
    rw [if_pos ((not_principal_cond r p).mpr hnp)]
  · intro a ha hf
    simp only [putTicket, ht, hp2]
    rw [if_neg hmneg]
    simp [validateAssignee, ha, hf]
  · intro a u ha hf hnp
    simp only [putTicket, ht, hp2]
    rw [if_neg hmneg]
    simp only [validateAssignee, ha, hf]
    rw [if_pos ((not_principal_cond a p).mpr hnp)]
  · intro hna r hr hf
    simp only [putTicket, ht, hp2]
    rw [if_neg hmneg]
    simp [validateAssignee, validateReporter, hna, hr, hf]
  · intro hna r u hr hf hnp
    simp only [putTicket, ht, hp2]
    rw [if_neg hmneg]
    simp only [validateAssignee, validateReporter, hna, hr, hf]
    rw [if_pos ((not_principal_cond r p).mpr hnp)]

/-- Witness for C4: creating with assignee 30 (an existing user outside
project 1) fails with 400 and leaves the store unchanged; updating with
assignee 99 (no such user) fails with 404 and leaves the store unchanged. -/
theorem c4_principal_validation_witness :
    createTicket [(5, sampleTicket)] [sampleProject] sampleUsers 11
        { projectId := 1, title := "a", description := "b", assignee := some 30 } 9 3 =
      (.err 400 "Assignee must be a member of the project team.", [(5, sampleTicket)]) ∧
    putTicket [(5, sampleTicket)] [sampleProject] sampleUsers 5 11 { assignee := some 99 } 3 =
      (.err 404 "Assignee user not found.", [(5, sampleTicket)]) := by
  have h := c4_principal_validation [(5, sampleTicket)] [sampleProject] sampleUsers 11
    { projectId := 1, title := "a", description := "b", assignee := some 30 } 9 3
    sampleProject 5 sampleTicket { assignee := some 99 }
    rfl (by decide) rfl rfl (by decide)
  exact ⟨h.2.2.1 30 { uid := 30, name := "z", email := "z@x" } rfl rfl (by decide),
         h.2.2.2.2.2.1 99 rfl rfl⟩

/-- Claim C5: remove-member fails with 400 when the target is the project
creator, whichever authorized actor asks (the only authorized actor is the
creator, including acting on themself), leaving the member set unchanged;
for any other target the removal succeeds, and removing a non-member leaves
the member set unchanged while still returning success. -/
theorem c5_remove_member (ps : List Project) (i actor target : Nat) (p : Project)
    (hp : findProject ps i = some p) (hactor : actor = p.createdBy) :
    (target = p.createdBy →
      removeMember ps i actor target =
        (.err 400 "Cannot remove the project creator from the team.", ps)) ∧
    (target ≠ p.createdBy →
      (removeMember ps i actor target).1 =
        .ok 200 { p with teamMembers := p.teamMembers.filter (fun m => m != target) }) ∧
    (target ≠ p.createdBy → target ∉ p.teamMembers →
      (removeMember ps i actor target).1 = .ok 200 p ∧
      (removeMember ps i actor target).2 = saveProject ps i p) := by
  have hgate : ¬ p.createdBy ≠ actor := fun hc => hc hactor.symm
  refine ⟨?_, ?_, ?_⟩
  · intro htc
    simp only [removeMember, hp]
    rw [if_neg hgate, if_pos htc]
  · intro htc
    simp only [removeMember, hp]
    rw [if_neg hgate, if_neg htc]
  · intro htc hmem
    have hfil : p.teamMembers.filter (fun m => m != target) = p.teamMembers := by
      apply List.filter_eq_self.mpr
      intro a ha
      simp only [ne_eq, bne_iff_ne]
      intro hcon
      exact hmem (hcon ▸ ha)
    simp only [removeMember, hp]
    rw [if_neg hgate, if_neg htc]
    constructor
    · simp [hfil]
    · simp [hfil]

/-- Witness for C5: owner 10 removing themself from project 1 fails with
400 and leaves the store unchanged; removing the non-member 12 returns
success with the member set unchanged. -/
theorem c5_remove_member_witness :
    removeMember [sampleProject] 1 10 10 =
      (.err 400 "Cannot remove the project creator from the team.", [sampleProject]) ∧
    (removeMember [sampleProject] 1 10 12).1 = .ok 200 sampleProject := by
  have h1 := c5_remove_member [sampleProject] 1 10 10 sampleProject rfl rfl
  have h2 := c5_remove_member [sampleProject] 1 10 12 sampleProject rfl rfl
  exact ⟨h1.1 rfl, (h2.2.2 (by decide) (by decide)).1⟩

/-- Claim C6: add-member resolves the target by email; no user with that
email yields 404; an already-member target yields 400 with the member set
unchanged; otherwise the resolved user id is appended to the member set. -/
theorem c6_add_member (ps : List Project) (users : List User) (i actor : Nat)
    (email : String) (p : Project)
    (hp : findProject ps i = some p) (hactor : actor = p.createdBy) :
    (findUserByEmail users email = none →
      addMember ps users i actor email = (.err 404 "User not found with this email.", ps)) ∧
    (∀ u, findUserByEmail users email = some u → u.uid ∈ p.teamMembers →
      addMember ps users i actor email =
        (.err 400 "User is already a team member of this project.", ps)) ∧
    (∀ u, findUserByEmail users email = some u → u.uid ∉ p.teamMembers →
      addMember ps users i actor email =
        (.ok 200 { p with teamMembers := p.teamMembers ++ [u.uid] },
         saveProject ps i { p with teamMembers := p.teamMembers ++ [u.uid] })) := by
  have hgate : ¬ p.createdBy ≠ actor := fun hc => hc hactor.symm
  refine ⟨?_, ?_, ?_⟩
  · intro hu
    simp only [addMember, hp]
    rw [if_neg hgate]
    simp [hu]
  · intro u hu hmem
    simp only [addMember, hp]
    rw [if_neg hgate]
    simp only [hu]
    rw [if_pos hmem]
  · intro u hu hmem
    simp only [addMember, hp]
    rw [if_neg hgate]
    simp only [hu]
    rw [if_neg hmem]

/-- Witness for C6: adding the unknown email misses with 404, re-adding the
member 11 by email fails with 400 and the store is unchanged, and adding
user 30 by email appends 30 to the member list. -/
theorem c6_add_member_witness :
    addMember [sampleProject] sampleUsers 1 10 "nobody@x" =
      (.err 404 "User not found with this email.", [sampleProject]) ∧
    addMember [sampleProject] sampleUsers 1 10 "m@x" =
      (.err 400 "User is already a team member of this project.", [sampleProject]) ∧
    (addMember [sampleProject] sampleUsers 1 10 "z@x").1 =
      .ok 200 { sampleProject with teamMembers := [10, 11, 30] } := by
  have h := c6_add_member [sampleProject] sampleUsers 1 10 "nobody@x" sampleProject rfl rfl
  have h2 := c6_add_member [sampleProject] sampleUsers 1 10 "m@x" sampleProject rfl rfl
  have h3 := c6_add_member [sampleProject] sampleUsers 1 10 "z@x" sampleProject rfl rfl
  refine ⟨h.1 (by decide), ?_, ?_⟩
  · exact h2.2.1 { uid := 11, name := "m", email := "m@x" } (by decide) (by decide)
  · rw [h3.2.2 { uid := 30, name := "z", email := "z@x" } (by decide) (by decide)]
    rfl

/-- Claim C7 is violated by the code: both PUT handlers apply the payload
with a blanket field copy, so a payload carrying projectId or createdBy
overwrites those fields instead of being ignored.  Here the owner 10
updates sampleTicket (projectId 1, createdBy 10) with a payload carrying
projectId 2 and createdBy 9, and both handlers persist a ticket whose
projectId is 2 and whose createdBy is 9. -/
theorem c7_immutable_fields_violated :
    sampleTicket.projectId = 1 ∧ sampleTicket.createdBy = 10 ∧
    (putTicketRoutes [(5, sampleTicket)] [sampleProject] 5 10
        { projectId := some 2, createdBy := some 9 } 7).1 =
      .ok 200 { sampleTicket with projectId := 2, createdBy := 9, updatedAt := 7 } ∧
    (putTicket [(5, sampleTicket)] [sampleProject] sampleUsers 5 10
        { projectId := some 2, createdBy := some 9 } 7).1 =
      .ok 200 { sampleTicket with projectId := 2, createdBy := 9, updatedAt := 7 } :=
  ⟨rfl, rfl, rfl, rfl⟩

/-- The comment list produced by folding a sequence of submissions is the
original list followed by one comment per submission, in submission order.
-/
theorem appendComments_comments (entries : List (Nat × String × Nat)) :
    ∀ t : Ticket, (appendComments t entries).comments =
      t.comments ++ entries.map
        (fun e => { author := e.1, text := e.2.1, timestamp := e.2.2 }) := by
  induction entries with
  | nil =>
    intro t
    simp [appendComments]
  | cons e es ih =>
    intro t
    simp only [appendComments, List.foldl_cons, List.map_cons]
    have := ih (appendComment t e.1 e.2.1 e.2.2)
    simp only [appendComments] at this
    rw [this]
    simp [appendComment]

/-- Claim C8: adding a comment appends exactly one entry at the end of the
comment log with the acting user as author and the supplied append-time
timestamp, leaves all prior entries in place, and the handler returns only
the newly appended comment; folding N submissions over a ticket with an
empty log yields a log of length N in submission order, with
non-decreasing timestamps whenever the append times are non-decreasing. -/
theorem c8_comment_append (ts : List (Nat × Ticket)) (ps : List Project)
    (tid actor : Nat) (text : String) (now : Nat) (t : Ticket) (p : Project)
    (ht : findTicket ts tid = some t) (hp : findProject ps t.projectId = some p)
    (hacc : canAccessProject actor p)
    (entries : List (Nat × String × Nat)) (t0 : Ticket) (h0 : t0.comments = []) :
    (appendComment t actor text now).comments =
      t.comments ++ [{ author := actor, text := text, timestamp := now }] ∧
    addComment ts ps tid actor text now =
      (.ok 201 { author := actor, text := text, timestamp := now },
       saveTicket ts tid (appendComment t actor text now)) ∧
    (appendComments t0 entries).comments = entries.map
      (fun e => { author := e.1, text := e.2.1, timestamp := e.2.2 }) ∧
    (appendComments t0 entries).comments.length = entries.length ∧
    (List.Pairwise (fun a b => a ≤ b) (entries.map (fun e => e.2.2)) →
      List.Pairwise (fun c d => c.timestamp ≤ d.timestamp)
        (appendComments t0 entries).comments) := by
  have hcm : (appendComments t0 entries).comments = entries.map
      (fun e => { author := e.1, text := e.2.1, timestamp := e.2.2 }) := by
    rw [appendComments_comments entries t0, h0]
    simp
  have hgate : ¬ (p.createdBy ≠ actor ∧ actor ∉ p.teamMembers) :=
    fun hc => (not_access_cond actor p).mp ⟨hc.2, hc.1⟩ hacc
  refine ⟨rfl, ?_, hcm, ?_, ?_⟩
  · simp only [addComment, ht, hp]
    rw [if_neg hgate]
    simp only [appendComment, Prod.mk.injEq]
    constructor
    · congr 1
      rw [List.getD_eq_getElem?_getD]
      simp
    · trivial
  · rw [hcm]
    simp
  · intro hmono
    rw [hcm]
    rw [List.pairwise_map]
    rw [List.pairwise_map] at hmono
    exact hmono

/-- Witness for C8: member 11 comments on sampleTicket and gets back
exactly the new comment; two submissions over an empty log give length 2.
-/
theorem c8_comment_append_witness :
    (addComment [(5, sampleTicket)] [sampleProject] 5 11 "hi" 4).1 =
      .ok 201 { author := 11, text := "hi", timestamp := 4 } ∧
    (appendComments sampleTicket [(10, "a", 1), (11, "b", 2)]).comments.length = 2 := by
  have h := c8_comment_append [(5, sampleTicket)] [sampleProject] 5 11 "hi" 4
    sampleTicket sampleProject rfl rfl (by decide)
    [(10, "a", 1), (11, "b", 2)] sampleTicket rfl
  exact ⟨by rw [h.2.1], h.2.2.2.1⟩

/-- After a project document is filtered out of the store, looking it up by
id misses. -/
theorem findProject_after_delete (ps : List Project) (i : Nat) :
    findProject (ps.filter (fun q => q.pid != i)) i = none := by
  unfold findProject
  rw [List.find?_eq_none]
  intro q hq
  have := (List.mem_filter.mp hq).2
  simp only [bne_iff_ne, ne_eq] at this
  simp [this]

/-- Claim C10: a ticket whose referenced project no longer exists makes GET
/api/tickets/:id fail with 500 (the handler dereferences the absent project
with no null check and the catch block answers 500) rather than 404 or the
ticket; with the project present the handler never answers 500; and since
project deletion does not cascade to tickets, deleting the project of a ticket
and then fetching the ticket yields exactly that 500. -/
theorem c10_orphan_ticket_500 (ts : List (Nat × Ticket)) (ps : List Project)
    (tid actor : Nat) (t : Ticket) (p : Project)
    (ht : findTicket ts tid = some t) :
    (findProject ps t.projectId = none →
      getTicketById ts ps tid actor =
        .err 500 "Server error. Could not fetch ticket details.") ∧
    (∀ q, findProject ps t.projectId = some q →
      ∀ m, getTicketById ts ps tid actor ≠ .err 500 m) ∧
    (findProject ps t.projectId = some p → p.createdBy = actor →
      getTicketById ts (deleteProject ps t.projectId actor).2 tid actor =
        .err 500 "Server error. Could not fetch ticket details.") := by
  refine ⟨?_, ?_, ?_⟩
  · intro hnone
    simp [getTicketById, ht, hnone]
  · intro q hq m
    simp only [getTicketById, ht, hq]
    split
    · simp
    · simp
  · intro hp hown
    have hdel : (deleteProject ps t.projectId actor).2 =
        ps.filter (fun q => q.pid != t.projectId) := by
      simp only [deleteProject, hp]
      rw [if_neg (fun hc => hc hown)]
    simp [getTicketById, ht, hdel, findProject_after_delete]

/-- Witness for C10: with an empty project store, fetching ticket 5 gives
500; after owner 10 deletes project 1, fetching its ticket 5 gives 500. -/
theorem c10_orphan_ticket_500_witness :
    getTicketById [(5, sampleTicket)] [] 5 11 =
      .err 500 "Server error. Could not fetch ticket details." ∧
    getTicketById [(5, sampleTicket)] (deleteProject [sampleProject] 1 10).2 5 10 =
      .err 500 "Server error. Could not fetch ticket details." := by
  have h1 := c10_orphan_ticket_500 [(5, sampleTicket)] [] 5 11 sampleTicket sampleProject rfl
  have h2 := c10_orphan_ticket_500 [(5, sampleTicket)] [sampleProject] 5 10
    sampleTicket sampleProject rfl
  exact ⟨h1.1 rfl, h2.2.2 rfl rfl⟩

/-- A membership present after one relay step was already present or was
created by that very join event. -/
theorem mem_relayStep (s : List (Nat × Nat)) (e : RelayEvent) (c r : Nat)
    (h : (c, r) ∈ relayStep s e) : (c, r) ∈ s ∨ e = RelayEvent.join c r := by
  cases e with
  | join a b =>
    by_cases hmem : (a, b) ∈ s
    · simp only [relayStep, if_pos hmem] at h
      exact Or.inl h
    · simp only [relayStep, if_neg hmem] at h
      rcases List.mem_append.mp h with h1 | h1
      · exact Or.inl h1
      · right
        have heq := List.mem_singleton.mp h1
        rw [Prod.mk.injEq] at heq
        rw [heq.1, heq.2]
  | disconnect a =>
    exact Or.inl (List.mem_of_mem_filter h)
  | broadcast a b =>
    exact Or.inl h

/-- A membership present after a trace was already present initially or was
created by a join event of the trace. -/
theorem mem_relayStateFrom (es : List RelayEvent) (c r : Nat) :
    ∀ s, (c, r) ∈ relayStateFrom s es → (c, r) ∈ s ∨ RelayEvent.join c r ∈ es := by
  induction es with
  | nil =>
    intro s h
    exact Or.inl (by simpa [relayStateFrom] using h)
  | cons e es ih =>
    intro s h
    have h2 : (c, r) ∈ relayStateFrom (relayStep s e) es := by
      simpa [relayStateFrom, List.foldl_cons] using h
    rcases ih (relayStep s e) h2 with h3 | h3
    · rcases mem_relayStep s e c r h3 with h4 | h4
      · exact Or.inl h4
      · right
        rw [h4]
        exact List.mem_cons_self _ _
    · right
      exact List.mem_cons_of_mem _ h3

/-- A channel is among the recipients of a broadcast to room r exactly when
its membership (channel, r) is in the current relay state. -/
theorem mem_broadcastRecipients (es : List RelayEvent) (r c : Nat) :
    c ∈ broadcastRecipients es r ↔ (c, r) ∈ relayState es := by
  unfold broadcastRecipients
  rw [List.mem_map]
  constructor
  · rintro ⟨m, hm, hmc⟩
    have hf := List.mem_filter.mp hm
    have h2 : m.2 = r := by simpa using hf.2
    have hmcr : m = (c, r) := by
      cases m
      simp_all
    exact hmcr ▸ hf.1
  · intro h
    exact ⟨(c, r), List.mem_filter.mpr ⟨h, by simp⟩, rfl⟩

/-- Relay state over a concatenated trace is the state of the suffix run
from the state of the prefix. -/
theorem relayStateFrom_append (s : List (Nat × Nat)) (xs ys : List RelayEvent) :
    relayStateFrom s (xs ++ ys) = relayStateFrom (relayStateFrom s xs) ys := by
  simp [relayStateFrom, List.foldl_append]

/-- Deliveries over a concatenated trace are the deliveries of the prefix
followed by the deliveries of the suffix run from the prefix state. -/
theorem deliveriesFrom_append (xs ys : List RelayEvent) :
    ∀ s, deliveriesFrom s (xs ++ ys) =
      deliveriesFrom s xs ++ deliveriesFrom (relayStateFrom s xs) ys := by
  induction xs with
  | nil =>
    intro s
    simp [deliveriesFrom, relayStateFrom]
  | cons e es ih =>
    intro s
    simp only [List.cons_append, deliveriesFrom, List.append_eq]
    rw [ih (relayStep s e)]
    simp [relayStateFrom, List.foldl_cons, List.append_assoc]

/-- Claim C9: a broadcast to project room r reaches exactly the channels
currently joined to r (and a broadcast event appends exactly those
deliveries); a channel that never joined r receives nothing from r; a
channel that disconnected and did not rejoin receives nothing from r; and a
join event appends no deliveries, so a channel joining after a broadcast
never receives it (no replay). -/
theorem c9_relay_delivery (pre pre1 pre2 : List RelayEvent) (c r payload : Nat) :
    ((c, r) ∈ relayState pre → c ∈ broadcastRecipients pre r) ∧
    (c ∈ broadcastRecipients pre r → (c, r) ∈ relayState pre) ∧
    (deliveries (pre ++ [RelayEvent.broadcast r payload]) =
      deliveries pre ++ (broadcastRecipients pre r).map (fun ch => (ch, r, payload))) ∧
    (RelayEvent.join c r ∉ pre → c ∉ broadcastRecipients pre r) ∧
    (RelayEvent.join c r ∉ pre2 →
      c ∉ broadcastRecipients (pre1 ++ RelayEvent.disconnect c :: pre2) r) ∧
    (deliveries (pre ++ [RelayEvent.join c r]) = deliveries pre) := by
  refine ⟨(mem_broadcastRecipients pre r c).mpr, (mem_broadcastRecipients pre r c).mp,
    ?_, ?_, ?_, ?_⟩
  · unfold deliveries
    rw [deliveriesFrom_append]
    congr 1
    simp [deliveriesFrom, emitTo, broadcastRecipients, relayState, List.map_map]
  · intro hj hc
    rcases mem_relayStateFrom pre c r [] ((mem_broadcastRecipients pre r c).mp hc) with h | h
    · simp at h
    · exact hj h
  · intro hj hc
    have hmem := (mem_broadcastRecipients _ r c).mp hc
    have hsplit : pre1 ++ RelayEvent.disconnect c :: pre2 =
        (pre1 ++ [RelayEvent.disconnect c]) ++ pre2 := by
      simp
    rw [relayState, hsplit, relayStateFrom_append] at hmem
    rcases mem_relayStateFrom pre2 c r _ hmem with h | h
    · rw [relayStateFrom_append] at h
      simp [relayStateFrom, relayStep, List.mem_filter] at h
    · exact hj h
  · unfold deliveries
    rw [deliveriesFrom_append]
    simp [deliveriesFrom, emitTo]

/-- Witness for C9: channel 1 joined room 7 and receives the broadcast to
room 7; channel 2 never joined and receives nothing; the full trace
delivers exactly one payload, to channel 1. -/
theorem c9_relay_delivery_witness :
    (1 : Nat) ∈ broadcastRecipients [RelayEvent.join 1 7] 7 ∧
    (2 : Nat) ∉ broadcastRecipients [RelayEvent.join 1 7] 7 ∧
    deliveries [RelayEvent.join 1 7, RelayEvent.broadcast 7 99] = [(1, 7, 99)] := by
  have h1 := c9_relay_delivery [RelayEvent.join 1 7] [] [] 1 7 99
  have h2 := c9_relay_delivery [RelayEvent.join 1 7] [] [] 2 7 99
  refine ⟨h1.1 (by decide), h2.2.2.2.1 (by decide), ?_⟩
  have h3 := h1.2.2.1
  rw [show [RelayEvent.join 1 7, RelayEvent.broadcast 7 99] =
    [RelayEvent.join 1 7] ++ [RelayEvent.broadcast 7 99] from rfl, h3]
  decide

end DevTrack
